import Mathlib

/-!
Verification of the allergic-rhinitis (AR) decision-support core in
`medical-diagnosis-skill/scripts/ar_diagnosis.py`.

The Python source is shallowly embedded: each class/staticmethod becomes a
Lean definition over explicit value types.  Python `dict.get` over the
differential-diagnosis signal map is modelled by `Option` fields (an absent
key is `none`); Python truthiness of an `Optional[float]` is modelled
explicitly (`none` and `some 0` are both falsy).
-/

namespace ARDiag

/-- `Severity` enum from the source (MILD=轻度, MODERATE=中度, SEVERE=重度). -/
inductive Severity where
  | MILD
  | MODERATE
  | SEVERE
deriving DecidableEq, Repr

/-- `Pattern` enum from the source (INTERMITTENT=间歇性, PERSISTENT=持续性). -/
inductive Pattern where
  | INTERMITTENT
  | PERSISTENT
deriving DecidableEq, Repr

/-- `Symptoms` dataclass: four 0-3 sub-scores. -/
structure Symptoms where
  sneeze : Int
  rhinorrhea : Int
  nasal_itch : Int
  nasal_congestion : Int
deriving DecidableEq, Repr

/-- `Symptoms.calculate_tnss`. -/
def Symptoms.calculate_tnss (s : Symptoms) : Int :=
  s.sneeze + s.rhinorrhea + s.nasal_itch + s.nasal_congestion

/-- `DiseaseCourse` dataclass. -/
structure DiseaseCourse where
  days_per_week : Int
  duration_weeks : Int
deriving DecidableEq, Repr

/-- `PatientInfo` dataclass.  `creatinine_clearance : Optional[float]` is
modelled as `Option ℚ`; list fields default to empty as in `__post_init__`. -/
structure PatientInfo where
  age : Int
  is_pregnant : Bool := false
  is_lactating : Bool := false
  has_asthma : Bool := false
  has_glaucoma : Bool := false
  has_bph : Bool := false
  has_hypertension : Bool := false
  has_heart_disease : Bool := false
  has_liver_disease : Bool := false
  has_kidney_disease : Bool := false
  creatinine_clearance : Option ℚ := none
  current_medications : List String := []
  drug_allergies : List String := []
  recent_alcohol : Bool := false
deriving DecidableEq, Repr

/-- `ARDiagnostic.classify_severity`. -/
def classify_severity (tnss_score : Int) : Severity :=
  if tnss_score ≤ 4 then Severity.MILD
  else if tnss_score ≤ 8 then Severity.MODERATE
  else Severity.SEVERE

/-- `ARDiagnostic.classify_pattern`. -/
def classify_pattern (disease_course : DiseaseCourse) : Pattern :=
  if disease_course.days_per_week < 4 ∨ disease_course.duration_weeks < 4 then
    Pattern.INTERMITTENT
  else
    Pattern.PERSISTENT

/-- The `symptoms_dict` input of `ARDiagnostic.differential_diagnosis`:
a Python dict of named flags.  Each key the function reads becomes an
`Option` field; an absent key is `none` (Python `dict.get` returns `None`). -/
structure SignalInput where
  duration_days : Option Int := none
  has_fever : Option Bool := none
  sore_throat : Option Bool := none
  yellow_discharge : Option Bool := none
  body_ache : Option Bool := none
  purulent_discharge : Option Bool := none
  facial_pain : Option Bool := none
  loss_of_smell : Option Bool := none
  headache : Option Bool := none
  cold_air_trigger : Option Bool := none
  odor_trigger : Option Bool := none
  position_trigger : Option Bool := none
  significant_itch : Option Bool := none
  has_allergen : Option Bool := none
  has_sneeze : Option Bool := none
  has_clear_discharge : Option Bool := none
  has_nasal_congestion : Option Bool := none
  recurrent : Option Bool := none
deriving DecidableEq, Repr

/-- Truthiness of `symptoms_dict.get(key)` for a boolean flag:
`None` and `False` are falsy, `True` is truthy. -/
def getFlag (o : Option Bool) : Bool := o.getD false

/-- One suspected-disease record appended to `result["suspected_diseases"]`. -/
structure DiffFinding where
  name : String
  confidence : String
  signs : List String
  suggestion : String
deriving DecidableEq, Repr

/-- The result dict of `ARDiagnostic.differential_diagnosis`. -/
structure DiffResult where
  excluded_diseases : List String
  suspected_diseases : List DiffFinding
  can_proceed_to_ar : Bool
  suggestions : List String
deriving DecidableEq, Repr

/-- Stage 1 score: `cold_score` accumulated in the source. -/
def cold_score (s : SignalInput) : Int :=
  (if s.duration_days.getD 999 ≤ 10 then 2 else 0) +
  (if getFlag s.has_fever then 2 else 0) +
  (if getFlag s.sore_throat then 1 else 0) +
  (if getFlag s.yellow_discharge then 1 else 0) +
  (if getFlag s.body_ache then 1 else 0)

/-- Stage 1 supporting-sign strings: `cold_signs` accumulated in the source. -/
def cold_signs (s : SignalInput) : List String :=
  (if s.duration_days.getD 999 ≤ 10 then ["病程<10天"] else []) ++
  (if getFlag s.has_fever then ["发热"] else []) ++
  (if getFlag s.sore_throat then ["咽痛"] else []) ++
  (if getFlag s.yellow_discharge then ["黄涕"] else []) ++
  (if getFlag s.body_ache then ["全身酸痛"] else [])

/-- Stage 2 score: `sinusitis_score`. -/
def sinusitis_score (s : SignalInput) : Int :=
  (if getFlag s.purulent_discharge then 3 else 0) +
  (if getFlag s.facial_pain then 2 else 0) +
  (if getFlag s.loss_of_smell then 2 else 0) +
  (if getFlag s.has_fever then 1 else 0) +
  (if getFlag s.headache then 1 else 0)

/-- Stage 2 supporting-sign strings. -/
def sinusitis_signs (s : SignalInput) : List String :=
  (if getFlag s.purulent_discharge then ["脓性鼻涕（黄/绿）"] else []) ++
  (if getFlag s.facial_pain then ["面部/面颊疼痛"] else []) ++
  (if getFlag s.loss_of_smell then ["嗅觉明显下降"] else []) ++
  (if getFlag s.has_fever then ["发热"] else []) ++
  (if getFlag s.headache then ["头痛"] else [])

/-- Stage 3 score: `vasomotor_score`.  Note the source reads
`symptoms_dict.get('significant_itch', True)` — the itch flag defaults to
`True` when absent — while `get('has_allergen')` defaults to falsy. -/
def vasomotor_score (s : SignalInput) : Int :=
  (if getFlag s.cold_air_trigger then 2 else 0) +
  (if getFlag s.odor_trigger then 2 else 0) +
  (if getFlag s.position_trigger then 1 else 0) +
  (if ¬ (s.significant_itch.getD true) then 2 else 0) +
  (if ¬ getFlag s.has_allergen then 1 else 0)

/-- Stage 3 supporting-sign strings. -/
def vasomotor_signs (s : SignalInput) : List String :=
  (if getFlag s.cold_air_trigger then ["冷空气诱发"] else []) ++
  (if getFlag s.odor_trigger then ["刺激性气味诱发"] else []) ++
  (if getFlag s.position_trigger then ["体位变化诱发"] else []) ++
  (if ¬ (s.significant_itch.getD true) then ["鼻痒不明显"] else []) ++
  (if ¬ getFlag s.has_allergen then ["无明确过敏原"] else [])

/-- Stage 4 score: `ar_score`. -/
def ar_score (s : SignalInput) : Int :=
  (if getFlag s.has_sneeze then 1 else 0) +
  (if getFlag s.has_clear_discharge then 1 else 0) +
  (if getFlag s.significant_itch then 2 else 0) +
  (if getFlag s.has_nasal_congestion then 1 else 0) +
  (if getFlag s.recurrent then 1 else 0) +
  (if getFlag s.has_allergen then 2 else 0)

/-- Stage 1 finding appended when `cold_score >= 3`. -/
def coldFinding (s : SignalInput) : DiffFinding :=
  { name := "感冒（急性上呼吸道感染）"
  , confidence := if cold_score s ≥ 4 then "高" else "中"
  , signs := cold_signs s
  , suggestion :=
      "根据您的症状，更像是感冒。建议：\n1. 多休息、多喝水\n2. 症状通常7-10天内自然缓解\n3. 如持续不愈或加重，请就医\n4. 可对症处理：发热可服用退热药，咽痛可含服咽喉片" }

/-- Stage 2 finding appended when `sinusitis_score >= 4`. -/
def sinusitisFinding (s : SignalInput) : DiffFinding :=
  { name := "鼻窦炎（急性/慢性）"
  , confidence := if sinusitis_score s ≥ 6 then "高" else "中"
  , signs := sinusitis_signs s
  , suggestion :=
      "您的症状提示可能为鼻窦炎，建议：\n1. 前往耳鼻喉科就诊\n2. 可能需要抗生素治疗\n3. 必要时需要CT检查明确诊断\n4. 不建议自行用药" }

/-- Stage 3 finding appended when `vasomotor_score >= 4`. -/
def vasomotorFinding (s : SignalInput) : DiffFinding :=
  { name := "血管运动性鼻炎"
  , confidence := if vasomotor_score s ≥ 5 then "高" else "中"
  , signs := vasomotor_signs s
  , suggestion :=
      "您的症状可能是血管运动性鼻炎，建议：\n1. 避免诱因（冷空气、刺激性气味、温度骤变）\n2. 可使用鼻用糖皮质激素\n3. 生理盐水鼻腔冲洗\n4. 如症状严重，建议耳鼻喉科就诊" }

/-- Exclusion label appended when the cold stage does not fire. -/
def coldExcludedLabel : String := "感冒（病程长/无发热/无黄涕）"

/-- Exclusion label appended when the sinusitis stage does not fire. -/
def sinusitisExcludedLabel : String := "鼻窦炎（无脓涕/无面部疼痛）"

/-- Exclusion label appended when the vasomotor stage does not fire. -/
def vasomotorExcludedLabel : String := "血管运动性鼻炎（鼻痒明显/有明确过敏原）"

/-- Suggestion text when `ar_score >= 5`. -/
def arConfirmText : String :=
  "✅ 已排除感冒、鼻窦炎、血管运动性鼻炎\n✅ 症状符合过敏性鼻炎特征\n→ 可以进入TNSS评分和治疗方案制定"

/-- Suggestion text when `ar_score < 5`: escalation to human/in-person care. -/
def arEscalateText : String :=
  "⚠️ 症状不典型，无法明确诊断\n建议：\n1. 转人工问诊服务（由执业医师评估）\n2. 前往线下耳鼻喉科就诊\n3. 可能需要过敏原检测、鼻镜检查等进一步检查"

/-- `ARDiagnostic.differential_diagnosis`: the stepwise, short-circuiting
four-stage elimination.  Each early `return` of the source becomes a branch
of the if-chain; exclusion labels accumulate across non-firing stages. -/
def differential_diagnosis (s : SignalInput) : DiffResult :=
  if cold_score s ≥ 3 then
    { excluded_diseases := []
    , suspected_diseases := [coldFinding s]
    , can_proceed_to_ar := false
    , suggestions := [] }
  else if sinusitis_score s ≥ 4 then
    { excluded_diseases := [coldExcludedLabel]
    , suspected_diseases := [sinusitisFinding s]
    , can_proceed_to_ar := false
    , suggestions := [] }
  else if vasomotor_score s ≥ 4 then
    { excluded_diseases := [coldExcludedLabel, sinusitisExcludedLabel]
    , suspected_diseases := [vasomotorFinding s]
    , can_proceed_to_ar := false
    , suggestions := [] }
  else if ar_score s ≥ 5 then
    { excluded_diseases := [coldExcludedLabel, sinusitisExcludedLabel, vasomotorExcludedLabel]
    , suspected_diseases := []
    , can_proceed_to_ar := true
    , suggestions := [arConfirmText] }
  else
    { excluded_diseases := [coldExcludedLabel, sinusitisExcludedLabel, vasomotorExcludedLabel]
    , suspected_diseases := []
    , can_proceed_to_ar := false
    , suggestions := [arEscalateText] }

/-- Value of one field of a Python medication-entry dict: either a string
or a list of option strings (the `"options"` fields of the source). -/
inductive FieldVal where
  | str : String → FieldVal
  | strs : List String → FieldVal
deriving DecidableEq, Repr

/-- One medication/therapy entry dict of the source, with its `"name"` field
separated out and the remaining key-value pairs kept in source order. -/
structure MedEntry where
  name : String
  fields : List (String × FieldVal)
deriving DecidableEq, Repr

/-- The treatment-plan dict.  Keys a branch of the source never writes
(e.g. `adjunct_therapies` in `_pregnancy_plan`) are the empty list here. -/
structure TreatmentPlan where
  primary_medications : List MedEntry
  adjunct_therapies : List MedEntry
  contraindications : List String
  warnings : List String
  special_instructions : List String
deriving DecidableEq, Repr

/-- Saline-irrigation primary entry of the age<2 branch. -/
def salineInfantEntry : MedEntry :=
  { name := "生理盐水鼻腔冲洗"
  , fields := [("dosage", FieldVal.str "每天2-3次"), ("note", FieldVal.str "婴幼儿唯一安全选择")] }

/-- Saline-irrigation primary entry of `_pregnancy_plan`. -/
def salinePregnancyEntry : MedEntry :=
  { name := "生理盐水鼻腔冲洗"
  , fields := [("dosage", FieldVal.str "每天3-4次"), ("priority", FieldVal.str "首选"),
               ("safety", FieldVal.str "完全安全")] }

/-- Saline-irrigation primary entry of `_lactation_plan`. -/
def salineLactationEntry : MedEntry :=
  { name := "生理盐水鼻腔冲洗"
  , fields := [("dosage", FieldVal.str "每天2-3次"), ("safety", FieldVal.str "完全安全")] }

/-- Universal saline adjunct appended in the general branch of
`generate_treatment_plan`. -/
def salineAdjunctEntry : MedEntry :=
  { name := "生理盐水/海盐水鼻腔冲洗"
  , fields := [("frequency", FieldVal.str "每天2-3次"),
               ("benefit", FieldVal.str "物理清除过敏原、稀释分泌物")] }

/-- Mild-intermittent primary entry. -/
def mildIntermittentEntry : MedEntry :=
  { name := "氯雷他定片 或 鼻用抗组胺药"
  , fields := [("dosage", FieldVal.str "氯雷他定 10mg 每天1次，按需使用"),
               ("duration", FieldVal.str "症状发作时使用")] }

/-- Mild-persistent first-line nasal-corticosteroid entry. -/
def mildPersistentSteroidEntry : MedEntry :=
  { name := "鼻用糖皮质激素（首选）"
  , fields := [("options", FieldVal.strs ["糠酸莫米松", "丙酸氟替卡松", "布地奈德"]),
               ("dosage", FieldVal.str "每天1次，每侧鼻孔2喷"),
               ("duration", FieldVal.str "至少2-4周")] }

/-- Mild-persistent adjunct oral-antihistamine entry. -/
def mildPersistentAntihistamineEntry : MedEntry :=
  { name := "口服抗组胺药（辅助）"
  , fields := [("options", FieldVal.strs ["氯雷他定", "地氯雷他定"]),
               ("dosage", FieldVal.str "按需使用，控制鼻痒、喷嚏")] }

/-- Moderate/severe mandatory nasal-corticosteroid entry. -/
def moderateSteroidEntry : MedEntry :=
  { name := "鼻用糖皮质激素（必需）"
  , fields := [("options", FieldVal.strs ["糠酸莫米松", "丙酸氟替卡松", "布地奈德"]),
               ("dosage", FieldVal.str "每天1-2次，每侧鼻孔2喷"),
               ("duration", FieldVal.str "至少4周，症状控制后逐步减量")] }

/-- Short-course nasal-decongestant entry added when nasal congestion ≥ 2. -/
def decongestantEntry : MedEntry :=
  { name := "鼻用减充血剂（短期）"
  , fields := [("drug", FieldVal.str "羟甲唑啉"),
               ("dosage", FieldVal.str "每侧鼻孔1-2喷，每天2次"),
               ("duration", FieldVal.str "不超过3-5天"),
               ("warning", FieldVal.str "⚠️ 长期使用导致药物性鼻炎")] }

/-- Oral-antihistamine entry added when nasal itch ≥ 2. -/
def itchAntihistamineEntry : MedEntry :=
  { name := "口服抗组胺药"
  , fields := [("options", FieldVal.strs ["氯雷他定", "地氯雷他定", "左西替利嗪"]),
               ("dosage", FieldVal.str "每天1次")] }

/-- Leukotriene-antagonist entry added for comorbid asthma. -/
def montelukastEntry : MedEntry :=
  { name := "孟鲁司特钠"
  , fields := [("dosage", FieldVal.str "10mg 每天1次（晚上）"),
               ("reason", FieldVal.str "同时管理上下气道炎症")] }

/-- Budesonide entry of `_pregnancy_plan`. -/
def budesonidePregnancyEntry : MedEntry :=
  { name := "布地奈德鼻喷剂"
  , fields := [("dosage", FieldVal.str "每天1次，每侧鼻孔1-2喷"),
               ("safety", FieldVal.str "FDA妊娠分级B级，相对安全")] }

/-- Loratadine entry of `_pregnancy_plan`. -/
def loratadinePregnancyEntry : MedEntry :=
  { name := "氯雷他定"
  , fields := [("dosage", FieldVal.str "10mg 每天1次"),
               ("safety", FieldVal.str "FDA妊娠分级B级"),
               ("note", FieldVal.str "症状明显时使用")] }

/-- Budesonide entry of `_lactation_plan`. -/
def budesonideLactationEntry : MedEntry :=
  { name := "布地奈德鼻喷剂"
  , fields := [("dosage", FieldVal.str "每天1次，每侧鼻孔1-2喷"),
               ("safety", FieldVal.str "局部作用，极少进入乳汁")] }

/-- Loratadine entry of `_lactation_plan`. -/
def loratadineLactationEntry : MedEntry :=
  { name := "氯雷他定"
  , fields := [("dosage", FieldVal.str "10mg 每天1次"),
               ("safety", FieldVal.str "少量进入乳汁，但无明显影响")] }

/-- Warning appended for comorbid asthma in the moderate/severe branch. -/
def asthmaWarningText : String :=
  "🚨 合并哮喘患者：鼻炎控制不佳可能诱发哮喘发作。如出现喘息、呼吸困难，请立即就医！"

/-- Warning appended for recent alcohol use. -/
def alcoholWarningText : String :=
  "⚠️ 近期饮酒：请避免使用西替利嗪等可能引起镇静的药物"

/-- Warning appended when the patient takes aspirin or clopidogrel. -/
def anticoagWarningText : String :=
  "⚠️ 您正在使用抗凝药物，长期使用鼻用激素可能增加鼻出血风险，请注意观察"

/-- Special instruction appended for renal insufficiency (clearance < 30). -/
def renalInstructionText : String :=
  "肾功能不全（肌酐清除率<30ml/min）：\n- 西替利嗪：5mg 隔日1次\n- 左西替利嗪：5mg 隔日1次\n- 优先选择：鼻用激素（无需调整剂量）"

/-- `TreatmentPlanner._pregnancy_plan`.  The `patient` argument is accepted
but unused, as in the source.  The dict never gets an `adjunct_therapies`
key; that list is therefore empty. -/
def pregnancy_plan (severity : Severity) (_patient : PatientInfo) : TreatmentPlan :=
  { primary_medications :=
      [salinePregnancyEntry] ++
      (if severity = Severity.MODERATE ∨ severity = Severity.SEVERE then
        [budesonidePregnancyEntry, loratadinePregnancyEntry]
      else [])
  , adjunct_therapies := []
  , contraindications := ["伪麻黄碱", "第一代抗组胺药", "长期大剂量鼻用减充血剂"]
  , warnings := ["⚠️ 孕期用药需谨慎，以下方案相对安全，但仍建议产科医生评估"]
  , special_instructions :=
      ["孕早期（前3个月）：尽量避免用药，首选非药物治疗", "孕中晚期：可谨慎使用以下药物"] }

/-- `TreatmentPlanner._lactation_plan`.  The dict never gets
`adjunct_therapies`, `contraindications` or `special_instructions` keys;
those lists are therefore empty. -/
def lactation_plan (severity : Severity) (_patient : PatientInfo) : TreatmentPlan :=
  { primary_medications :=
      [salineLactationEntry] ++
      (if severity = Severity.MODERATE ∨ severity = Severity.SEVERE then
        [budesonideLactationEntry, loratadineLactationEntry]
      else [])
  , adjunct_therapies := []
  , contraindications := []
  , warnings := ["✅ 以下药物在哺乳期相对安全，乳汁中含量极低"]
  , special_instructions := [] }

/-- Truthiness of `patient.creatinine_clearance` (an `Optional[float]`):
Python treats both `None` and `0.0` as falsy. -/
def clearanceTruthy (o : Option ℚ) : Bool :=
  match o with
  | none => false
  | some c => c ≠ 0

/-- `TreatmentPlanner.generate_treatment_plan`.  Special-population branches
return early; otherwise the general rule table accumulates entries in source
order (contraindications, severity/pattern regimen with its nested adds and
the asthma warning, the universal saline adjunct, the alcohol and
anticoagulant warnings, and the renal-dose special instruction). -/
def generate_treatment_plan (severity : Severity) (pattern : Pattern)
    (patient : PatientInfo) (symptoms : Symptoms) : TreatmentPlan :=
  if patient.is_pregnant then pregnancy_plan severity patient
  else if patient.is_lactating then lactation_plan severity patient
  else if patient.age < 2 then
    { primary_medications := [salineInfantEntry]
    , adjunct_therapies := []
    , contraindications := []
    , warnings := []
    , special_instructions := ["2岁以下婴幼儿建议线下儿科就诊"] }
  else
    { primary_medications :=
        if severity = Severity.MILD ∧ pattern = Pattern.INTERMITTENT then
          [mildIntermittentEntry]
        else if severity = Severity.MILD ∧ pattern = Pattern.PERSISTENT then
          [mildPersistentSteroidEntry, mildPersistentAntihistamineEntry]
        else if severity = Severity.MODERATE ∨ severity = Severity.SEVERE then
          [moderateSteroidEntry] ++
          (if symptoms.nasal_congestion ≥ 2 then [decongestantEntry] else []) ++
          (if symptoms.nasal_itch ≥ 2 then [itchAntihistamineEntry] else []) ++
          (if patient.has_asthma then [montelukastEntry] else [])
        else []
    , adjunct_therapies := [salineAdjunctEntry]
    , contraindications :=
        (if patient.has_glaucoma then
          ["第一代抗组胺药（扑尔敏等）", "鼻用减充血剂（羟甲唑啉等）"] else []) ++
        (if patient.has_bph then ["第一代抗组胺药", "伪麻黄碱"] else [])
    , warnings :=
        (if (severity = Severity.MODERATE ∨ severity = Severity.SEVERE) ∧ patient.has_asthma
          then [asthmaWarningText] else []) ++
        (if patient.recent_alcohol then [alcoholWarningText] else []) ++
        (if "阿司匹林" ∈ patient.current_medications ∨ "氯吡格雷" ∈ patient.current_medications
          then [anticoagWarningText] else [])
    , special_instructions :=
        if patient.has_kidney_disease ∧ clearanceTruthy patient.creatinine_clearance
            ∧ patient.creatinine_clearance.getD 0 < 30 then
          [renalInstructionText]
        else [] }

/-- `needle` is a leading segment of `hay` (character-by-character). -/
def leadsWith : List Char → List Char → Bool
  | [], _ => true
  | _ :: _, [] => false
  | a :: as, b :: bs => a == b && leadsWith as bs

/-- `needle` occurs contiguously somewhere inside `hay`: the embedding of
Python's `keyword in user_input` substring test. -/
def occursIn (needle : List Char) : List Char → Bool
  | [] => leadsWith needle []
  | c :: cs => leadsWith needle (c :: cs) || occursIn needle cs

/-- Substring containment on strings, via their character lists. -/
def containsKw (text kw : String) : Bool := occursIn kw.data text.data

/-- One entry of `DangerSignalDetector.EMERGENCY_SIGNALS`: a category key,
its trigger phrases, and the urgent action message. -/
structure DangerSignal where
  stype : String
  keywords : List String
  action : String
deriving DecidableEq, Repr

/-- `DangerSignalDetector.EMERGENCY_SIGNALS`, in the source's (insertion)
order. -/
def EMERGENCY_SIGNALS : List DangerSignal :=
  [ { stype := "asthma_attack"
    , keywords := ["呼吸困难", "喘息", "胸闷", "无法平卧", "说话困难"]
    , action := "🚨 立即急诊！可能为哮喘发作，需紧急处理" }
  , { stype := "anaphylaxis"
    , keywords := ["全身皮疹", "面部肿胀", "喉头水肿", "血压下降", "意识改变"]
    , action := "🚨 立即急诊！可能为过敏性休克，需肾上腺素治疗" }
  , { stype := "sinusitis_complication"
    , keywords := ["高热不退", "剧烈头痛", "面部肿胀压痛", "视力改变"]
    , action := "🚨 立即就医！可能为鼻窦炎并发症" }
  , { stype := "severe_epistaxis"
    , keywords := ["鼻出血不止", "大量出血", "头晕", "心悸"]
    , action := "🚨 立即急诊止血" } ]

/-- `DangerSignalDetector.check_danger_signals`: for each category in order,
append one `(type, action)` pair when some trigger phrase occurs in the
input (the source's inner loop `break`s after the first matching phrase, so
a category contributes at most one pair). -/
def check_danger_signals (user_input : String) : List (String × String) :=
  EMERGENCY_SIGNALS.filterMap (fun sig =>
    if sig.keywords.any (fun kw => containsKw user_input kw) then
      some (sig.stype, sig.action)
    else
      none)

/-! ## Concrete inputs used by the theorems -/

/-- The empty signal map `{}`. -/
def emptyInput : SignalInput := {}

/-- The C1 example map: duration 3 days, fever, sore throat, body ache,
purulent discharge and facial pain all set. -/
def c1Input : SignalInput :=
  { duration_days := some 3, has_fever := some true, sore_throat := some true
  , body_ache := some true, purulent_discharge := some true, facial_pain := some true }

/-- The C2 example map: all six AR-stage flags set. -/
def c2Input : SignalInput :=
  { has_sneeze := some true, has_clear_discharge := some true
  , significant_itch := some true, has_nasal_congestion := some true
  , recurrent := some true, has_allergen := some true }

/-! ## Differential-diagnosis theorems -/

/-- C6: `classify_severity` maps TNSS in [0,4] to Mild, (4,8] to Moderate
and (8,12] to Severe; boundaries 4 → Mild, 5 → Moderate, 8 → Moderate,
9 → Severe. -/
theorem classify_severity_ranges :
    (∀ t : Int, 0 ≤ t → t ≤ 4 → classify_severity t = Severity.MILD) ∧
    (∀ t : Int, 4 < t → t ≤ 8 → classify_severity t = Severity.MODERATE) ∧
    (∀ t : Int, 8 < t → t ≤ 12 → classify_severity t = Severity.SEVERE) ∧
    classify_severity 4 = Severity.MILD ∧
    classify_severity 5 = Severity.MODERATE ∧
    classify_severity 8 = Severity.MODERATE ∧
    classify_severity 9 = Severity.SEVERE := by
  refine ⟨?_, ?_, ?_, by decide, by decide, by decide, by decide⟩
  · intro t _ h4
    unfold classify_severity
    rw [if_pos h4]
  · intro t h4 h8
    unfold classify_severity
    rw [if_neg (by omega), if_pos h8]
  · intro t h8 _
    unfold classify_severity
    rw [if_neg (by omega), if_neg (by omega)]

/-- Witness for `classify_severity_ranges` at tnss = 2, 6 and 10. -/
theorem classify_severity_ranges_witness :
    classify_severity 2 = Severity.MILD ∧
    classify_severity 6 = Severity.MODERATE ∧
    classify_severity 10 = Severity.SEVERE :=
  ⟨classify_severity_ranges.1 2 (by decide) (by decide),
   classify_severity_ranges.2.1 6 (by decide) (by decide),
   classify_severity_ranges.2.2.1 10 (by decide) (by decide)⟩

/-- C1: the differential engine is a strictly ordered short-circuiting
elimination — the first stage (cold, then sinusitis, then vasomotor) whose
score meets its threshold yields the only suspected finding; on the example
map satisfying both the cold and the sinusitis thresholds, only the
common-cold finding is reported, with confidence 高 (High) since the cold
score is ≥ 4. -/
theorem differential_diagnosis_short_circuits :
    (∀ s : SignalInput, 3 ≤ cold_score s →
      differential_diagnosis s =
        { excluded_diseases := [], suspected_diseases := [coldFinding s]
        , can_proceed_to_ar := false, suggestions := [] }) ∧
    (∀ s : SignalInput, cold_score s < 3 → 4 ≤ sinusitis_score s →
      differential_diagnosis s =
        { excluded_diseases := [coldExcludedLabel]
        , suspected_diseases := [sinusitisFinding s]
        , can_proceed_to_ar := false, suggestions := [] }) ∧
    (∀ s : SignalInput, cold_score s < 3 → sinusitis_score s < 4 → 4 ≤ vasomotor_score s →
      differential_diagnosis s =
        { excluded_diseases := [coldExcludedLabel, sinusitisExcludedLabel]
        , suspected_diseases := [vasomotorFinding s]
        , can_proceed_to_ar := false, suggestions := [] }) ∧
    (3 ≤ cold_score c1Input ∧ 4 ≤ sinusitis_score c1Input) ∧
    (differential_diagnosis c1Input).suspected_diseases = [coldFinding c1Input] ∧
    (coldFinding c1Input).name = "感冒（急性上呼吸道感染）" ∧
    4 ≤ cold_score c1Input ∧
    (coldFinding c1Input).confidence = "高" := by
  refine ⟨?_, ?_, ?_, by decide, by decide, by decide, by decide, by decide⟩
  · intro s h
    unfold differential_diagnosis
    rw [if_pos h]
  · intro s h1 h2
    unfold differential_diagnosis
    rw [if_neg (by omega), if_pos h2]
  · intro s h1 h2 h3
    unfold differential_diagnosis
    rw [if_neg (by omega), if_neg (by omega), if_pos h3]

/-- Witness for `differential_diagnosis_short_circuits` at the C1 example
map. -/
theorem differential_diagnosis_short_circuits_witness :
    3 ≤ cold_score c1Input ∧
    differential_diagnosis c1Input =
      { excluded_diseases := [], suspected_diseases := [coldFinding c1Input]
      , can_proceed_to_ar := false, suggestions := [] } :=
  ⟨by decide, differential_diagnosis_short_circuits.1 c1Input (by decide)⟩

/-- C2: when the first three stages do not fire, the AR-confirmation stage
sets `can_proceed_to_ar` exactly when `ar_score ≥ 5` and emits the
confirmatory or the escalation guidance accordingly; the all-six-flags map
has score 8 and proceeds, the empty map reaches the AR stage with score 0,
does not proceed and gets the escalation guidance. -/
theorem ar_confirmation_threshold :
    (∀ s : SignalInput, cold_score s < 3 → sinusitis_score s < 4 → vasomotor_score s < 4 →
      ((differential_diagnosis s).can_proceed_to_ar = decide (5 ≤ ar_score s) ∧
       (differential_diagnosis s).suggestions =
         (if 5 ≤ ar_score s then [arConfirmText] else [arEscalateText]))) ∧
    ar_score c2Input = 8 ∧
    (differential_diagnosis c2Input).can_proceed_to_ar = true ∧
    (cold_score emptyInput < 3 ∧ sinusitis_score emptyInput < 4 ∧ vasomotor_score emptyInput < 4) ∧
    ar_score emptyInput = 0 ∧
    (differential_diagnosis emptyInput).can_proceed_to_ar = false ∧
    (differential_diagnosis emptyInput).suggestions = [arEscalateText] := by
  refine ⟨?_, by decide, by decide, by decide, by decide, by decide, by decide⟩
  intro s h1 h2 h3
  unfold differential_diagnosis
  rw [if_neg (by omega), if_neg (by omega), if_neg (by omega)]
  by_cases h : 5 ≤ ar_score s
  · rw [if_pos h, if_pos h]
    exact ⟨by simp [h], rfl⟩
  · rw [if_neg h, if_neg h]
    exact ⟨by simp [h], rfl⟩

/-- Witness for `ar_confirmation_threshold` at the empty map. -/
theorem ar_confirmation_threshold_witness :
    (differential_diagnosis emptyInput).can_proceed_to_ar = decide (5 ≤ ar_score emptyInput) ∧
    (differential_diagnosis emptyInput).suggestions =
      (if 5 ≤ ar_score emptyInput then [arConfirmText] else [arEscalateText]) :=
  ar_confirmation_threshold.1 emptyInput (by decide) (by decide) (by decide)

/-- The itch summand of the vasomotor stage equals 2 exactly when the itch
flag is explicitly present and false (`dict.get('significant_itch', True)`
defaults to true). -/
theorem itch_summand_eq (o : Option Bool) :
    (if ¬ (o.getD true) then (2 : Int) else 0) =
      (if o = some false then 2 else 0) := by
  rcases o with _ | b
  · decide
  · cases b <;> decide

/-- The allergen summand of the vasomotor stage equals 1 exactly when the
allergen flag is not explicitly true (false or unset). -/
theorem allergen_summand_eq (o : Option Bool) :
    (if ¬ getFlag o then (1 : Int) else 0) =
      (if o = some true then 0 else 1) := by
  rcases o with _ | b
  · decide
  · cases b <;> decide

/-- C4 counterexample: on the empty map the itch flag is unset, yet the
vasomotor score is 1 (only the absent-allergen point), while the same map
with the itch flag explicitly false scores 3 — an absent itch flag is NOT
treated the same as false, so no 2 points are added for it. -/
theorem vasomotor_unset_itch_counterexample :
    emptyInput.significant_itch = none ∧
    vasomotor_score emptyInput = 1 ∧
    vasomotor_score { significant_itch := some false } = 3 ∧
    vasomotor_score emptyInput ≠ vasomotor_score { significant_itch := some false } := by
  decide

/-- C4 amended: in the vasomotor stage 2 points are added exactly when the
significant-itch flag is present and explicitly false (an absent flag is
defaulted to true and adds nothing), and 1 point is added exactly when the
identified-allergen flag is false or unset. -/
theorem vasomotor_itch_allergen_weights (s : SignalInput) :
    vasomotor_score s =
      (if getFlag s.cold_air_trigger then 2 else 0) +
      (if getFlag s.odor_trigger then 2 else 0) +
      (if getFlag s.position_trigger then 1 else 0) +
      (if s.significant_itch = some false then 2 else 0) +
      (if s.has_allergen = some true then 0 else 1) := by
  unfold vasomotor_score
  rw [itch_summand_eq, allergen_summand_eq]

/-- C10: invariants of every differential-diagnosis result — at most one
suspected finding; when the run may proceed to AR workup the suspected list
is empty and the excluded list is exactly the three stage labels; a
non-empty suspected list forces `can_proceed_to_ar = false`. -/
theorem differential_result_invariant (s : SignalInput) :
    (differential_diagnosis s).suspected_diseases.length ≤ 1 ∧
    ((differential_diagnosis s).can_proceed_to_ar = true →
      (differential_diagnosis s).suspected_diseases = [] ∧
      (differential_diagnosis s).excluded_diseases =
        [coldExcludedLabel, sinusitisExcludedLabel, vasomotorExcludedLabel]) ∧
    ((differential_diagnosis s).suspected_diseases ≠ [] →
      (differential_diagnosis s).can_proceed_to_ar = false) := by
  unfold differential_diagnosis
  split_ifs <;> simp

/-- Witness for `differential_result_invariant` at the all-six-flags map,
which proceeds to AR workup. -/
theorem differential_result_invariant_witness :
    (differential_diagnosis c2Input).can_proceed_to_ar = true ∧
    (differential_diagnosis c2Input).suspected_diseases = [] ∧
    (differential_diagnosis c2Input).excluded_diseases =
      [coldExcludedLabel, sinusitisExcludedLabel, vasomotorExcludedLabel] :=
  ⟨by decide, (differential_result_invariant c2Input).2.1 (by decide)⟩

/-! ## Treatment-plan theorems -/

/-- A symptom score used at concrete inputs. -/
def symptomsEx : Symptoms :=
  { sneeze := 2, rhinorrhea := 2, nasal_itch := 2, nasal_congestion := 2 }

/-- A pregnant patient who also has glaucoma (to exhibit that the comorbidity
rules of the general table are bypassed). -/
def pregnantPatient : PatientInfo := { age := 28, is_pregnant := true, has_glaucoma := true }

/-- A non-special-population adult patient. -/
def adultPatient : PatientInfo := { age := 35 }

/-- An infant (age 1) with unrelated comorbidities set. -/
def infantPatient : PatientInfo := { age := 1, has_glaucoma := true, has_asthma := true }

/-- An age-1 patient flagged pregnant: the pregnancy branch fires before the
age check. -/
def infantPregnantPatient : PatientInfo := { age := 1, is_pregnant := true }

/-- A patient with kidney disease and a present creatinine clearance of 0. -/
def kidneyZeroPatient : PatientInfo :=
  { age := 40, has_kidney_disease := true, creatinine_clearance := some 0 }

/-- A patient with kidney disease and a present creatinine clearance of 20. -/
def kidneyLowPatient : PatientInfo :=
  { age := 40, has_kidney_disease := true, creatinine_clearance := some 20 }

/-- C3: for a pregnant patient the synthesizer returns the dedicated
pregnancy plan (which ignores every other patient attribute, so no
comorbidity rule of the general table applies), and its contraindication
list is always exactly pseudoephedrine, first-generation antihistamines and
chronic high-dose nasal decongestants, regardless of severity and pattern. -/
theorem generate_plan_pregnancy_override (severity : Severity) (pattern : Pattern)
    (patient : PatientInfo) (symptoms : Symptoms) (h : patient.is_pregnant = true) :
    generate_treatment_plan severity pattern patient symptoms = pregnancy_plan severity patient ∧
    (∀ p' : PatientInfo, pregnancy_plan severity patient = pregnancy_plan severity p') ∧
    (generate_treatment_plan severity pattern patient symptoms).contraindications =
      ["伪麻黄碱", "第一代抗组胺药", "长期大剂量鼻用减充血剂"] := by
  have e : generate_treatment_plan severity pattern patient symptoms =
      pregnancy_plan severity patient := by
    unfold generate_treatment_plan
    rw [if_pos h]
  refine ⟨e, fun p' => rfl, ?_⟩
  rw [e]
  rfl

/-- Witness for `generate_plan_pregnancy_override` at a concrete pregnant
patient with glaucoma. -/
theorem generate_plan_pregnancy_override_witness :
    pregnantPatient.is_pregnant = true ∧
    (generate_treatment_plan Severity.MILD Pattern.INTERMITTENT pregnantPatient symptomsEx).contraindications =
      ["伪麻黄碱", "第一代抗组胺药", "长期大剂量鼻用减充血剂"] :=
  ⟨rfl, (generate_plan_pregnancy_override Severity.MILD Pattern.INTERMITTENT
    pregnantPatient symptomsEx rfl).2.2⟩

/-- C7 counterexample: an age-1 patient who is also flagged pregnant hits
the pregnancy branch first, so the plan has three primary medications and
two special instructions — not the minimal infant plan the claim promises
for age < 2 "irrespective of any other patient attribute". -/
theorem age_under_two_counterexample :
    infantPregnantPatient.age < 2 ∧
    (generate_treatment_plan Severity.MODERATE Pattern.PERSISTENT infantPregnantPatient
      symptomsEx).primary_medications.length = 3 ∧
    (generate_treatment_plan Severity.MODERATE Pattern.PERSISTENT infantPregnantPatient
      symptomsEx).special_instructions.length = 2 := by
  decide

/-- C7 amended: for a patient of age < 2 who is neither pregnant nor
lactating, the plan is the fixed minimal infant plan — exactly one primary
medication (saline irrigation) and exactly one special instruction (seek
in-person pediatric care) — irrespective of severity, pattern, symptoms and
every other patient attribute. -/
theorem age_under_two_minimal_plan (severity : Severity) (pattern : Pattern)
    (patient : PatientInfo) (symptoms : Symptoms)
    (hp : patient.is_pregnant = false) (hl : patient.is_lactating = false)
    (ha : patient.age < 2) :
    generate_treatment_plan severity pattern patient symptoms =
      { primary_medications := [salineInfantEntry]
      , adjunct_therapies := []
      , contraindications := []
      , warnings := []
      , special_instructions := ["2岁以下婴幼儿建议线下儿科就诊"] } ∧
    (generate_treatment_plan severity pattern patient symptoms).primary_medications.length = 1 ∧
    salineInfantEntry.name = "生理盐水鼻腔冲洗" ∧
    (generate_treatment_plan severity pattern patient symptoms).special_instructions.length = 1 := by
  have e : generate_treatment_plan severity pattern patient symptoms =
      { primary_medications := [salineInfantEntry]
      , adjunct_therapies := []
      , contraindications := []
      , warnings := []
      , special_instructions := ["2岁以下婴幼儿建议线下儿科就诊"] } := by
    unfold generate_treatment_plan
    rw [if_neg (by simp [hp]), if_neg (by simp [hl]), if_pos ha]
  exact ⟨e, by rw [e]; rfl, rfl, by rw [e]; rfl⟩

/-- Witness for `age_under_two_minimal_plan` at a concrete infant with
unrelated comorbidities. -/
theorem age_under_two_minimal_plan_witness :
    infantPatient.age < 2 ∧
    (generate_treatment_plan Severity.SEVERE Pattern.PERSISTENT infantPatient
      symptomsEx).primary_medications.length = 1 ∧
    (generate_treatment_plan Severity.SEVERE Pattern.PERSISTENT infantPatient
      symptomsEx).special_instructions.length = 1 := by
  have h := age_under_two_minimal_plan Severity.SEVERE Pattern.PERSISTENT
    infantPatient symptomsEx rfl rfl (by decide)
  exact ⟨by decide, h.2.1, h.2.2.2⟩

/-- C5 counterexample: the pregnancy plan never receives an
adjunct-therapies entry — for a pregnant patient the adjunct list is empty,
so the saline adjunct is not in every plan. -/
theorem saline_adjunct_counterexample :
    pregnantPatient.is_pregnant = true ∧
    (generate_treatment_plan Severity.MODERATE Pattern.PERSISTENT pregnantPatient
      symptomsEx).adjunct_therapies = [] := by
  decide

/-- C5 amended: the saline adjunct entry is in every plan produced by the
general rule table (patient not pregnant, not lactating, age ≥ 2); every
special-population plan (pregnancy, lactation, age < 2, at every severity
and pattern) has an empty adjunct-therapies list and instead carries saline
irrigation among its primary medications. -/
theorem saline_in_every_plan (severity : Severity) (pattern : Pattern)
    (patient : PatientInfo) (symptoms : Symptoms) :
    (patient.is_pregnant = false → patient.is_lactating = false → ¬ patient.age < 2 →
      salineAdjunctEntry ∈
        (generate_treatment_plan severity pattern patient symptoms).adjunct_therapies) ∧
    ((patient.is_pregnant = true ∨ patient.is_lactating = true ∨ patient.age < 2) →
      (generate_treatment_plan severity pattern patient symptoms).adjunct_therapies = [] ∧
      ∃ m ∈ (generate_treatment_plan severity pattern patient symptoms).primary_medications,
        m.name = "生理盐水鼻腔冲洗") := by
  constructor
  · intro hp hl ha
    unfold generate_treatment_plan
    rw [if_neg (by simp [hp]), if_neg (by simp [hl]), if_neg ha]
    simp
  · intro hcase
    unfold generate_treatment_plan
    by_cases hp : patient.is_pregnant
    · rw [if_pos hp]
      refine ⟨rfl, salinePregnancyEntry, ?_, rfl⟩
      simp [pregnancy_plan]
    · rw [if_neg hp]
      by_cases hl : patient.is_lactating
      · rw [if_pos hl]
        refine ⟨rfl, salineLactationEntry, ?_, rfl⟩
        simp [lactation_plan]
      · rw [if_neg hl]
        have ha : patient.age < 2 := by
          rcases hcase with h | h | h
          · exact absurd h hp
          · exact absurd h hl
          · exact h
        rw [if_pos ha]
        exact ⟨rfl, salineInfantEntry, by simp, rfl⟩

/-- Witness for `saline_in_every_plan`: the general branch at a concrete
adult, and the special branch at a concrete pregnant patient, whose plan
has an empty adjunct list and saline among its primary medications. -/
theorem saline_in_every_plan_witness :
    salineAdjunctEntry ∈
      (generate_treatment_plan Severity.MILD Pattern.INTERMITTENT adultPatient
        symptomsEx).adjunct_therapies ∧
    (generate_treatment_plan Severity.MILD Pattern.INTERMITTENT pregnantPatient
        symptomsEx).adjunct_therapies = [] ∧
    ∃ m ∈ (generate_treatment_plan Severity.MILD Pattern.INTERMITTENT pregnantPatient
        symptomsEx).primary_medications, m.name = "生理盐水鼻腔冲洗" :=
  ⟨(saline_in_every_plan Severity.MILD Pattern.INTERMITTENT adultPatient symptomsEx).1
      rfl rfl (by decide),
   (saline_in_every_plan Severity.MILD Pattern.INTERMITTENT pregnantPatient symptomsEx).2
      (Or.inl rfl)⟩

/-- C8 (code bug): a present creatinine clearance of 0 — which is < 30 — is
treated as absent by the source's truthiness test
`if patient.has_kidney_disease and patient.creatinine_clearance:`, so the
renal dose-adjustment instruction is NOT emitted for clearance 0, while the
otherwise-identical patient with clearance 20 does receive it. -/
theorem renal_clearance_truthiness_bug :
    kidneyZeroPatient.has_kidney_disease = true ∧
    kidneyZeroPatient.creatinine_clearance = some 0 ∧
    ((0 : ℚ) < 30) ∧
    (generate_treatment_plan Severity.MILD Pattern.INTERMITTENT kidneyZeroPatient
      symptomsEx).special_instructions = [] ∧
    kidneyLowPatient.creatinine_clearance = some 20 ∧
    (generate_treatment_plan Severity.MILD Pattern.INTERMITTENT kidneyLowPatient
      symptomsEx).special_instructions = [renalInstructionText] := by
  decide

/-! ## Danger-signal theorems -/

/-- The list of reported category keys never repeats a category. -/
theorem check_reported_categories_nodup (input : String) :
    ((check_danger_signals input).map Prod.fst).Nodup := by
  unfold check_danger_signals EMERGENCY_SIGNALS
  rcases Bool.eq_false_or_eq_true
      (["呼吸困难", "喘息", "胸闷", "无法平卧", "说话困难"].any
        (fun kw => containsKw input kw)) with h1 | h1 <;>
  rcases Bool.eq_false_or_eq_true
      (["全身皮疹", "面部肿胀", "喉头水肿", "血压下降", "意识改变"].any
        (fun kw => containsKw input kw)) with h2 | h2 <;>
  rcases Bool.eq_false_or_eq_true
      (["高热不退", "剧烈头痛", "面部肿胀压痛", "视力改变"].any
        (fun kw => containsKw input kw)) with h3 | h3 <;>
  rcases Bool.eq_false_or_eq_true
      (["鼻出血不止", "大量出血", "头晕", "心悸"].any
        (fun kw => containsKw input kw)) with h4 | h4 <;>
  simp [List.filterMap, h1, h2, h3, h4]

/-- A category's `(type, action)` pair is reported exactly when one of its
trigger phrases occurs as a substring of the input. -/
theorem check_reported_iff_keyword (input : String) :
    ∀ sig ∈ EMERGENCY_SIGNALS,
      ((sig.stype, sig.action) ∈ check_danger_signals input ↔
        ∃ kw ∈ sig.keywords, containsKw input kw = true) := by
  intro sig hsig
  fin_cases hsig <;>
  · rcases Bool.eq_false_or_eq_true
        (["呼吸困难", "喘息", "胸闷", "无法平卧", "说话困难"].any
          (fun kw => containsKw input kw)) with h1 | h1 <;>
    rcases Bool.eq_false_or_eq_true
        (["全身皮疹", "面部肿胀", "喉头水肿", "血压下降", "意识改变"].any
          (fun kw => containsKw input kw)) with h2 | h2 <;>
    rcases Bool.eq_false_or_eq_true
        (["高热不退", "剧烈头痛", "面部肿胀压痛", "视力改变"].any
          (fun kw => containsKw input kw)) with h3 | h3 <;>
    rcases Bool.eq_false_or_eq_true
        (["鼻出血不止", "大量出血", "头晕", "心悸"].any
          (fun kw => containsKw input kw)) with h4 | h4 <;>
    rw [← List.any_eq_true] <;>
    simp [check_danger_signals, EMERGENCY_SIGNALS, List.filterMap, h1, h2, h3, h4]

/-- C9: `check_danger_signals` reports each category at most once; a
category is reported exactly when one of its trigger phrases occurs as a
literal substring of the input (categories are checked independently, so
several may be reported); the input 我现在呼吸困难，胸闷 — containing two
trigger phrases of the asthma-attack category — reports that category
exactly once. -/
theorem check_danger_signals_category_behavior (input : String) :
    ((check_danger_signals input).map Prod.fst).Nodup ∧
    (∀ sig ∈ EMERGENCY_SIGNALS,
      ((sig.stype, sig.action) ∈ check_danger_signals input ↔
        ∃ kw ∈ sig.keywords, containsKw input kw = true)) ∧
    check_danger_signals "我现在呼吸困难，胸闷" =
      [("asthma_attack", "🚨 立即急诊！可能为哮喘发作，需紧急处理")] :=
  ⟨check_reported_categories_nodup input, check_reported_iff_keyword input, by decide⟩

/-- Witness for `check_danger_signals_category_behavior`: the asthma-attack
category is reported on the double-trigger input. -/
theorem check_danger_signals_category_behavior_witness :
    ("asthma_attack", "🚨 立即急诊！可能为哮喘发作，需紧急处理") ∈
      check_danger_signals "我现在呼吸困难，胸闷" :=
  ((check_danger_signals_category_behavior "我现在呼吸困难，胸闷").2.1
      { stype := "asthma_attack"
      , keywords := ["呼吸困难", "喘息", "胸闷", "无法平卧", "说话困难"]
      , action := "🚨 立即急诊！可能为哮喘发作，需紧急处理" }
      (by decide)).mpr
    ⟨"呼吸困难", by decide, by decide⟩

end ARDiag
